import Mathlib

/-!
# Verification of the Vocalproof deepfake-detector prediction pipeline

Shallow embedding of the repository's client code and of the documented
server contract:

* `src/Front/src/App.jsx` — the React client (`handleFile`, `analyze`,
  `CircularConfidence`, the error panel).
* The alternate "VoiceShield" vanilla-JS client embedded in
  `src/TECHNICAL_DOCUMENTATION.md` (`handleFile`, the `predictBtn` click
  handler, `showResult`).
* The server-side score interpretation and upload-size limit, which are
  documented in the repository but whose Python source is not present;
  these are modelled from the specification.

JavaScript numbers are modelled as rationals (`ℚ`), JSON objects as
association lists, and JS truthiness (`a || b`, `if (x)`) explicitly.
-/

namespace Vocalproof

/-- A JSON value as handled by the clients: strings, numbers, booleans,
`null`.  (Nested objects/arrays are never inspected field-wise by the
code under verification, so they are not needed.) -/
inductive JsonVal where
  | str (s : String)
  | num (q : ℚ)
  | bool (b : Bool)
  | null
deriving DecidableEq, Repr

/-- A JSON object is an association list of fields.  A key that does not
occur models an absent field (JS `undefined` on access). -/
abbrev JsonObj := List (String × JsonVal)

/-- Field access `obj.key`: `none` models JS `undefined`. -/
def JsonObj.get (o : JsonObj) (k : String) : Option JsonVal :=
  (o.find? (fun p => p.1 == k)).map (·.2)

/-- JS truthiness of a JSON value: `""`, `0`, `false` and `null` are
falsy, everything else truthy. -/
def truthyV : JsonVal → Bool
  | .str s => s != ""
  | .num q => q != 0
  | .bool b => b
  | .null => false

/-- JS truthiness of a possibly-absent value: `undefined` is falsy. -/
def truthy : Option JsonVal → Bool
  | none => false
  | some v => truthyV v

/-- JS `a || b` on a possibly-absent JSON value: keeps `a` when truthy,
otherwise evaluates to the fallback. -/
def jsOr (v : Option JsonVal) (fb : JsonVal) : JsonVal :=
  match v with
  | some x => if truthyV x then x else fb
  | none => fb

/-- The string JS renders for a JSON value (only strings matter to the
code paths under verification; the other coercions follow JS). -/
def displayString : JsonVal → String
  | .str s => s
  | .num q => toString q
  | .bool b => if b then "true" else "false"
  | .null => "null"

/-- JS `a || fallbackString` where the result is used as a string
(`errData.error || ...`, `data.error || ...`, `err.message || ...`). -/
def jsOrString (v : Option JsonVal) (fb : String) : String :=
  if truthy v then displayString (jsOr v (.str fb)) else fb

/-! ## The React client (`src/Front/src/App.jsx`) -/

/-- JS `const API_BASE_URL = import.meta.env.VITE_API_URL || 'http://localhost:5000'`
with the environment override unset. -/
def API_BASE_URL : String := "http://localhost:5000"

/-- An HTTP request as issued by `fetch`: URL, method, and the multipart
form fields of the body (field name paired with the attached file). -/
structure Request where
  url : String
  httpMethod : String
  formFields : List (String × String)
deriving DecidableEq, Repr

/-- The React `App` component state
(`file`, `processing`, `result`, `confidence`, `error`, `audioInfo`,
`processingTime` from `useState`).  A file is represented by its name. -/
structure AppState where
  file : Option String
  processing : Bool
  result : Option JsonVal
  confidence : Option JsonVal
  error : Option String
  audioInfo : Option JsonVal
  processingTime : JsonVal
deriving DecidableEq, Repr

/-- The initial `App` state (all `useState` initialisers). -/
def initialAppState : AppState :=
  { file := none, processing := false, result := none,
    confidence := some (.num 0), error := none, audioInfo := none,
    processingTime := .num 0 }

/-- Function `handleFile` in `App` (App.jsx:245-251): store the file and clear
result, confidence, error and audioInfo. -/
def handleFile (s : AppState) (f : String) : AppState :=
  { s with file := some f, result := none, confidence := some (.num 0),
           error := none, audioInfo := none }

/-- Function `handleFiles` in `FileUploader` (App.jsx:63-66): take the first file
of the selection, if any, and pass it on unconditionally — there is no
extension or size validation. -/
def handleFiles (files : List String) : Option String :=
  files.head?

/-- What the awaited `fetch` + `response.json()` produce, seen from
`analyze`: a parsed 2xx body, a parsed non-2xx body with its status, or
a thrown exception (network failure or JSON parse failure) carrying the
JS `Error.message`. -/
inductive FetchOutcome where
  | ok (body : JsonObj)
  | httpErr (status : Nat) (body : JsonObj)
  | thrown (msg : String)
deriving DecidableEq, Repr

/-- The message of the `Error` thrown on a non-ok response
(App.jsx:274-277): `errData.error || ` the template literal
`API error: ${response.status}`. -/
def reactHttpErrorMsg (status : Nat) (body : JsonObj) : String :=
  jsOrString (body.get "error") ("API error: " ++ toString status)

/-- Function `analyze` (App.jsx:253-295) as a state transformer.  `localMs` is
`endTime - startTime` in milliseconds.  Returns the new component state
and the list of HTTP requests issued.  The early `if(!file) return`
issues nothing; otherwise exactly one `POST` to
`` `${API_BASE_URL}/api/predict` `` is made with a `FormData` body
holding the single field `file`, and the `try/catch/finally` updates
state per the outcome. -/
def analyze (s : AppState) (outcome : FetchOutcome) (localMs : ℚ) :
    AppState × List Request :=
  match s.file with
  | none => (s, [])
  | some f =>
    let s1 : AppState :=
      { s with processing := true, result := none,
               confidence := some (.num 0), error := none }
    let req : Request :=
      { url := API_BASE_URL ++ "/api/predict", httpMethod := "POST",
        formFields := [("file", f)] }
    let s2 : AppState :=
      match outcome with
      | .ok body =>
          if truthy (body.get "success") then
            { s1 with result := body.get "prediction",
                      confidence := body.get "confidence",
                      audioInfo := body.get "audio_info",
                      processingTime :=
                        jsOr (body.get "processing_time_seconds")
                          (.num (localMs / 1000)) }
          else
            { s1 with error := some (jsOrString (body.get "error")
                                       "Prediction failed") }
      | .httpErr status body =>
          { s1 with error := some (jsOrString
              (some (.str (reactHttpErrorMsg status body)))
              "Failed to connect to API. Make sure the backend is running on port 5000.") }
      | .thrown msg =>
          { s1 with error := some (jsOrString (some (.str msg))
              "Failed to connect to API. Make sure the backend is running on port 5000.") }
    (( { s2 with processing := false } : AppState), [req])

/-- The error panel (App.jsx:313-321) is rendered exactly when `error`
is non-null. -/
def errorPanelShown (s : AppState) : Bool :=
  s.error.isSome

/-- The text body of the error panel: the JSX renders `{error}`, the
stored string unmodified. -/
def errorPanelText (s : AppState) : String :=
  s.error.getD ""

/-! ## `CircularConfidence` (App.jsx:99-121) -/

/-- JS `Math.round`: rounds half toward positive infinity, i.e.
`⌊x + 1/2⌋`. -/
def jsRound (q : ℚ) : ℤ :=
  ⌊q + 1/2⌋

namespace CircularConfidence

/-- JS `const normalized = Math.max(0, Math.min(100, Math.round(value)))`. -/
def normalized (value : ℚ) : ℤ :=
  max 0 (min 100 (jsRound value))

/-- JS `const dash = c * (normalized/100)`, with the circumference
`c = 2*Math.PI*radius` kept as a parameter since π is irrational. -/
def dash (c : ℚ) (value : ℚ) : ℚ :=
  c * ((normalized value : ℚ) / 100)

/-- The `strokeDasharray` template `` `${dash} ${c-dash}` `` of the
progress circle: visible arc length, then gap length. -/
def strokeDasharray (c : ℚ) (value : ℚ) : ℚ × ℚ :=
  (dash c value, c - dash c value)

/-- The `<text>` node content: `{normalized}%`. -/
def displayedText (value : ℚ) : String :=
  toString (normalized value) ++ "%"

end CircularConfidence

/-! ## The alternate "VoiceShield" client
(the JS embedded in `src/TECHNICAL_DOCUMENTATION.md`) -/

namespace Alt

/-- JS `const API_URL = "http://127.0.0.1:8000/predict"`. -/
def API_URL : String := "http://127.0.0.1:8000/predict"

/-- The extension whitelist of the alternate `handleFile`:
`["wav", "flac", "mp3", "m4a", "ogg"]`. -/
def allowed : List String := ["wav", "flac", "mp3", "m4a", "ogg"]

/-- Splitting a character list at every occurrence of a separator,
mirroring the semantics of JS `String.prototype.split` with a
one-character separator (an empty input yields one empty chunk, and a
separator at either end yields an empty chunk there). -/
def splitOnChar (sep : Char) : List Char → List (List Char)
  | [] => [[]]
  | c :: cs =>
    let r := splitOnChar sep cs
    if c = sep then [] :: r
    else
      match r with
      | [] => [[c]]
      | h :: t => (c :: h) :: t

/-- JS `file.name.split(".").pop().toLowerCase()`: the part after the last
dot (the whole name when there is no dot), lower-cased. -/
def extOf (name : String) : String :=
  String.mk (((splitOnChar '.' name.data).getLastD []).map Char.toLower)

/-- The guard of the alternate `handleFile`: the file is kept as
`selectedFile` exactly when its extension is in the whitelist;
otherwise a warning status is shown and the function returns without
selecting it. -/
def handleFileAccepts (name : String) : Bool :=
  allowed.contains (extOf name)

/-- The status message shown when `handleFile` rejects a file. -/
def rejectionStatus (name : String) : String :=
  "Invalid file type \"." ++ extOf name ++ "\". Accepted: "
    ++ String.intercalate ", " allowed

/-- The message of the `Error` thrown by the `predictBtn` handler on a
non-ok response: `err.detail || ` the template
`` `Server error (${res.status})` ``.  A body that fails to parse is
replaced by `{}` (`.catch(() => ({}))`), modelled as the empty object. -/
def httpErrorMsg (status : Nat) (body : JsonObj) : String :=
  jsOrString (body.get "detail") ("Server error (" ++ toString status ++ ")")

/-- The requests issued by one `predictBtn` click: nothing when no file
is selected, otherwise exactly one `POST` to `API_URL` whose `FormData`
body holds the single field `file`. -/
def predictRequests (selectedFile : Option String) : List Request :=
  match selectedFile with
  | none => []
  | some f => [{ url := API_URL, httpMethod := "POST",
                 formFields := [("file", f)] }]

/-- Call `showResult(data.label, data.confidence)`: the label read from the
response and the percentage `confidence * 100` driving both `confText`
and the progress-bar width (`toFixed(1)` only formats it).  Success
handling reads the `label` and `confidence` fields of the body. -/
def showResultPct (confidence : ℚ) : ℚ :=
  confidence * 100

/-- The label the alternate client displays for a success body:
`data.label`. -/
def successLabel (body : JsonObj) : Option JsonVal :=
  body.get "label"

end Alt

/-! ## Server-side parts not present under `src/` -/

inductive Label where
  | REAL
  | FAKE
deriving DecidableEq, Repr

/-- Modelled from the spec: the score-to-label interpretation of
`Backend/app.py`, which is not under `src/` (only described by
`src/TECHNICAL_DOCUMENTATION.md` lines 94-104).  Decision rule
`score > 0.5 → FAKE else REAL`; confidence `score*100` for FAKE and
`(1-score)*100` for REAL. -/
def resultInterpreter (s : ℚ) : Label × ℚ :=
  if s > 1/2 then (Label.FAKE, s * 100) else (Label.REAL, (1 - s) * 100)

/-- Modelled from the spec: the fixed upload-size limit (30 MB) the
missing backend enforces before decoding. -/
def MAX_UPLOAD_BYTES : ℕ := 30 * 1024 * 1024

/-- Modelled from the spec: the `PredictionService` size gate of the
missing backend — an upload strictly above the limit is rejected with
`PayloadTooLargeError` before the decoder is consulted; the decoder
(and the rest of the pipeline) is abstracted as a parameter `decode`
that runs only on accepted uploads. -/
def predictionServiceSizeGate (decode : ℕ → Except String (Label × ℚ))
    (sizeBytes : ℕ) : Except String (Label × ℚ) :=
  if sizeBytes > MAX_UPLOAD_BYTES then
    Except.error "PayloadTooLargeError"
  else
    decode sizeBytes

/-! ## Helper lemmas -/

/-- A non-empty string passed through JS `x || fallback` survives
verbatim. -/
theorem jsOrString_str (m fb : String) (hm : m ≠ "") :
    jsOrString (some (.str m)) fb = m := by
  simp [jsOrString, truthy, truthyV, jsOr, displayString, hm]

/-- An absent value passed through JS `x || fallback` yields the
fallback. -/
theorem jsOrString_none (fb : String) : jsOrString none fb = fb := rfl

/-! ## Claims -/

/-- C1: for every raw model score `s` in `[0,1]`, the score-to-label
interpretation returns FAKE exactly when `s > 0.5` and REAL otherwise
(so `s = 0.5` is classified REAL), with confidence `s*100` for FAKE and
`(1-s)*100` for REAL. -/
theorem C1_result_interpretation (s : ℚ) (h0 : 0 ≤ s) (h1 : s ≤ 1) :
    ((resultInterpreter s).1 = Label.FAKE ↔ 1/2 < s)
    ∧ (s ≤ 1/2 → resultInterpreter s = (Label.REAL, (1 - s) * 100))
    ∧ (1/2 < s → resultInterpreter s = (Label.FAKE, s * 100))
    ∧ resultInterpreter (1/2) = (Label.REAL, 50) := by
  unfold resultInterpreter
  rw [if_neg (by norm_num : ¬((1:ℚ)/2 > 1/2))]
  by_cases hc : s > (1/2 : ℚ)
  · rw [if_pos hc]
    exact ⟨⟨fun _ => hc, fun _ => rfl⟩, fun h => absurd hc (not_lt.mpr h),
      fun _ => rfl, by norm_num⟩
  · rw [if_neg hc]
    exact ⟨⟨fun h => absurd (Label.noConfusion h) id, fun h => absurd h hc⟩,
      fun _ => rfl, fun h => absurd h hc, by norm_num⟩

/-- C1 witness: the spec's scenario — a raw score of `0.0547` yields
label REAL with confidence `94.53`. -/
theorem C1_result_interpretation_witness :
    resultInterpreter (547/10000) = (Label.REAL, 9453/100) := by
  have h := (C1_result_interpretation (547/10000) (by norm_num) (by norm_num)).2.1
    (by norm_num)
  rw [h]
  norm_num

/-- C7: an upload of exactly the 30 MB limit is accepted for processing
(the gate hands it to the decoder), while an upload one byte larger is
rejected with `PayloadTooLargeError` without the decoder being
consulted (the outcome is the same for every decoder). -/
theorem C7_size_limit_boundary :
    (∀ decode : ℕ → Except String (Label × ℚ),
        predictionServiceSizeGate decode MAX_UPLOAD_BYTES
          = decode MAX_UPLOAD_BYTES)
    ∧ (∀ decode : ℕ → Except String (Label × ℚ),
        predictionServiceSizeGate decode (MAX_UPLOAD_BYTES + 1)
          = Except.error "PayloadTooLargeError")
    ∧ (∀ d₁ d₂ : ℕ → Except String (Label × ℚ),
        predictionServiceSizeGate d₁ (MAX_UPLOAD_BYTES + 1)
          = predictionServiceSizeGate d₂ (MAX_UPLOAD_BYTES + 1)) := by
  refine ⟨fun decode => ?_, fun decode => ?_, fun d₁ d₂ => ?_⟩
  · simp [predictionServiceSizeGate]
  · simp [predictionServiceSizeGate]
  · simp [predictionServiceSizeGate]

/-- A success body in which the `label` and `prediction` fields differ,
exposing which one the React client reads. -/
def c2Body : JsonObj :=
  [("success", .bool true), ("label", .str "FAKE"),
   ("prediction", .str "REAL"), ("confidence", .num 97)]

/-- C2 counterexample: on a success response whose `label` field says
FAKE but whose `prediction` field says REAL, the React client stores
REAL — it reads `prediction`, not `label`.  Moreover the alternate
client does rescale the confidence value (`0.973` is displayed as
`97.3`, i.e. multiplied by 100), contradicting "without rescaling". -/
theorem C2_counterexample :
    (analyze (handleFile initialAppState "clip.wav") (.ok c2Body) 120).1.result
        ≠ c2Body.get "label"
    ∧ (analyze (handleFile initialAppState "clip.wav") (.ok c2Body) 120).1.result
        = some (.str "REAL")
    ∧ c2Body.get "label" = some (.str "FAKE")
    ∧ Alt.showResultPct (973/1000) ≠ 973/1000 := by
  refine ⟨by decide, rfl, rfl, ?_⟩
  unfold Alt.showResultPct
  norm_num

/-- C2 amended: on every success response, the React client reads the
predicted label from the `prediction` field and stores the `confidence`
value unrescaled (it is a percentage in `[0,100]`); the alternate
client reads the `label` field and multiplies its (fractional)
`confidence` by 100 before display. -/
theorem C2_success_fields (body : JsonObj) (s : AppState) (f : String) (ms : ℚ)
    (hf : s.file = some f) (hs : truthy (body.get "success") = true) :
    ((analyze s (.ok body) ms).1.result = body.get "prediction")
    ∧ ((analyze s (.ok body) ms).1.confidence = body.get "confidence")
    ∧ (∀ conf : ℚ, Alt.showResultPct conf = conf * 100)
    ∧ (∀ b : JsonObj, Alt.successLabel b = b.get "label") := by
  refine ⟨?_, ?_, fun conf => rfl, fun b => rfl⟩ <;>
    simp [analyze, hf, hs]

/-- C2 witness: a concrete success response exercising the amended
claim. -/
theorem C2_success_fields_witness :
    (analyze (handleFile initialAppState "clip.wav") (.ok c2Body) 120).1.confidence
      = c2Body.get "confidence" :=
  (C2_success_fields c2Body (handleFile initialAppState "clip.wav") "clip.wav" 120
    rfl rfl).2.1

/-- C3: the claim (and the repository's own documentation, which says
the `FileUploader` component "Validates file extensions") is
contradicted by `App.jsx`: `handleFiles` passes a `.txt` selection
through unchanged, and `analyze` then issues a prediction request for
it; only the alternate client rejects the extension. -/
theorem C3_react_accepts_bad_extension :
    handleFiles ["notes.txt"] = some "notes.txt"
    ∧ (analyze (handleFile initialAppState "notes.txt")
        (.thrown "Failed to fetch") 50).2.length = 1
    ∧ Alt.handleFileAccepts "notes.txt" = false
    ∧ Alt.handleFileAccepts "clip.wav" = true := by
  exact ⟨rfl, rfl, by decide, by decide⟩

/-- C5 counterexample: the alternate client's non-success handler reads
the `detail` field, not `error`: on a 400 response whose body is
`{"error": "boom"}` it shows the generic `Server error (400)` instead
of `boom`. -/
theorem C5_counterexample :
    Alt.httpErrorMsg 400 [("error", .str "boom")] = "Server error (400)"
    ∧ "Server error (400)" ≠ "boom" := by
  exact ⟨rfl, by decide⟩

/-- C5 amended: on a non-success HTTP response, the React client uses
the JSON body's `error` field (when present as a non-empty string) as
the displayed message and falls back to `API error: <status>` when the
field is absent; the alternate client instead uses the `detail` field
with the fallback `Server error (<status>)`. -/
theorem C5_error_message_derivation (status : Nat) (body : JsonObj) (m : String)
    (hm : m ≠ "") :
    (body.get "error" = some (.str m) → reactHttpErrorMsg status body = m)
    ∧ (body.get "error" = none →
        reactHttpErrorMsg status body = "API error: " ++ toString status)
    ∧ (body.get "detail" = some (.str m) → Alt.httpErrorMsg status body = m)
    ∧ (body.get "detail" = none →
        Alt.httpErrorMsg status body = "Server error (" ++ toString status ++ ")") := by
  refine ⟨fun h => ?_, fun h => ?_, fun h => ?_, fun h => ?_⟩
  · rw [reactHttpErrorMsg, h, jsOrString_str _ _ hm]
  · rw [reactHttpErrorMsg, h, jsOrString_none]
  · rw [Alt.httpErrorMsg, h, jsOrString_str _ _ hm]
  · rw [Alt.httpErrorMsg, h, jsOrString_none]

/-- C5 witness: concrete error bodies exercising both derivations. -/
theorem C5_error_message_derivation_witness :
    reactHttpErrorMsg 500 [("error", .str "decode failed")] = "decode failed"
    ∧ Alt.httpErrorMsg 404 [] = "Server error (404)" :=
  ⟨(C5_error_message_derivation 500 [("error", .str "decode failed")]
      "decode failed" (by decide)).1 rfl,
   (C5_error_message_derivation 404 [] "x" (by decide)).2.2.2 rfl⟩

/-- C4: when a prediction attempt ends in an error, the React client
stores the error message unmodified and the error panel renders it
verbatim; the panel is shown exactly when an error is stored and is
dismissed by selecting a new file; and `analyze` issues exactly one
request per invocation whatever the outcome — there is no automatic
retry. -/
theorem C4_error_verbatim_no_retry (s : AppState) (f : String)
    (status : Nat) (body : JsonObj) (m : String) (ms : ℚ)
    (hf : s.file = some f) (hm : m ≠ "") :
    (body.get "error" = some (.str m) →
        errorPanelText (analyze s (.httpErr status body) ms).1 = m
        ∧ errorPanelShown (analyze s (.httpErr status body) ms).1 = true)
    ∧ errorPanelText (analyze s (.thrown m) ms).1 = m
    ∧ (∀ o : FetchOutcome, (analyze s o ms).2.length = 1)
    ∧ (∀ g : String, errorPanelShown (handleFile s g) = false) := by
  refine ⟨fun h => ?_, ?_, fun o => ?_, fun g => rfl⟩
  · have hmsg : reactHttpErrorMsg status body = m := by
      rw [reactHttpErrorMsg, h, jsOrString_str _ _ hm]
    constructor <;>
      simp [analyze, hf, hmsg, errorPanelText, errorPanelShown,
        jsOrString_str _ _ hm]
  · simp [analyze, hf, errorPanelText, jsOrString_str _ _ hm]
  · cases o <;> simp [analyze, hf]

/-- C4 witness: a thrown network error message is rendered verbatim in
the panel. -/
theorem C4_error_verbatim_no_retry_witness :
    errorPanelText (analyze (handleFile initialAppState "clip.wav")
      (.thrown "Failed to fetch") 80).1 = "Failed to fetch" :=
  (C4_error_verbatim_no_retry (handleFile initialAppState "clip.wav")
    "clip.wav" 500 [] "Failed to fetch" 80 rfl (by decide)).2.1

/-- C6: per analysis of a selected file, the React client issues
exactly one POST to `/api/predict` whose multipart body holds the
single field `file` carrying the selected file, and the alternate
client's `predictBtn` handler issues exactly one POST to `/predict`
with the same single-field body (and nothing when no file is
selected). -/
theorem C6_single_predict_request (s : AppState) (f : String)
    (o : FetchOutcome) (ms : ℚ) (hf : s.file = some f) :
    (analyze s o ms).2 =
      [{ url := API_BASE_URL ++ "/api/predict", httpMethod := "POST",
         formFields := [("file", f)] }]
    ∧ Alt.predictRequests (some f) =
      [{ url := Alt.API_URL, httpMethod := "POST",
         formFields := [("file", f)] }]
    ∧ Alt.predictRequests none = [] := by
  refine ⟨?_, rfl, rfl⟩
  cases o <;> simp [analyze, hf]

/-- C6 witness: the concrete request issued for a selected file. -/
theorem C6_single_predict_request_witness :
    (analyze (handleFile initialAppState "clip.wav") (.thrown "x") 10).2 =
      [{ url := "http://localhost:5000/api/predict", httpMethod := "POST",
         formFields := [("file", "clip.wav")] }] :=
  (C6_single_predict_request (handleFile initialAppState "clip.wav")
    "clip.wav" (.thrown "x") 10 rfl).1

/-- C8: selecting a file clears result, confidence, error and
audioInfo; after `analyze` on a selected file the `processing` flag is
false on every completion path, at most one of `result` and `error` is
non-null, and each completion path sets exactly the expected one:
success stores the `prediction` field and leaves `error` null, while a
server-reported failure, an HTTP error, or a thrown exception leave
`result` null and store an error message. -/
theorem C8_state_invariant (s : AppState) (f g : String)
    (o : FetchOutcome) (ms : ℚ) (hf : s.file = some f) :
    ((handleFile s g).result = none ∧ (handleFile s g).error = none
      ∧ (handleFile s g).confidence = some (.num 0)
      ∧ (handleFile s g).audioInfo = none)
    ∧ (analyze s o ms).1.processing = false
    ∧ ¬((analyze s o ms).1.result.isSome ∧ (analyze s o ms).1.error.isSome)
    ∧ (∀ body, truthy (body.get "success") = true →
        (analyze s (.ok body) ms).1.result = body.get "prediction"
        ∧ (analyze s (.ok body) ms).1.error = none)
    ∧ (∀ body, truthy (body.get "success") = false →
        (analyze s (.ok body) ms).1.result = none
        ∧ (analyze s (.ok body) ms).1.error ≠ none)
    ∧ (∀ status body,
        (analyze s (.httpErr status body) ms).1.result = none
        ∧ (analyze s (.httpErr status body) ms).1.error ≠ none)
    ∧ (∀ m, (analyze s (.thrown m) ms).1.result = none
        ∧ (analyze s (.thrown m) ms).1.error ≠ none) := by
  refine ⟨⟨rfl, rfl, rfl, rfl⟩, ?_, ?_, ?_, ?_, ?_, ?_⟩
  · cases o <;> simp [analyze, hf]
  · cases o with
    | ok body =>
      by_cases hs : truthy (body.get "success") <;>
        simp [analyze, hf, hs]
    | httpErr status body => simp [analyze, hf]
    | thrown m => simp [analyze, hf]
  · intro body hs
    constructor <;> simp [analyze, hf, hs]
  · intro body hs
    constructor <;> simp [analyze, hf, hs]
  · intro status body
    constructor <;> simp [analyze, hf]
  · intro m
    constructor <;> simp [analyze, hf]

/-- C8 witness: a concrete run through the success path. -/
theorem C8_state_invariant_witness :
    (analyze (handleFile initialAppState "clip.wav") (.ok c2Body) 10).1.processing
      = false :=
  (C8_state_invariant (handleFile initialAppState "clip.wav") "clip.wav"
    "clip.wav" (.ok c2Body) 10 rfl).2.1

/-- C9: `CircularConfidence` displays `Math.round(value)` clamped to
`[0,100]`, its arc length is the clamped value divided by 100 of the
circumference, the two `strokeDasharray` segments sum to the full
circumference, and the rendered percentage can never lie outside
`[0,100]` whatever numeric `value` is passed in. -/
theorem C9_circular_confidence_clamped (v c : ℚ) (hc : 0 ≤ c) :
    CircularConfidence.normalized v = max 0 (min 100 (jsRound v))
    ∧ 0 ≤ CircularConfidence.normalized v
    ∧ CircularConfidence.normalized v ≤ 100
    ∧ CircularConfidence.dash c v
        = c * ((CircularConfidence.normalized v : ℚ) / 100)
    ∧ 0 ≤ CircularConfidence.dash c v
    ∧ CircularConfidence.dash c v ≤ c
    ∧ (CircularConfidence.strokeDasharray c v).1
        + (CircularConfidence.strokeDasharray c v).2 = c
    ∧ CircularConfidence.displayedText v
        = toString (CircularConfidence.normalized v) ++ "%" := by
  have h0 : (0:ℤ) ≤ CircularConfidence.normalized v := le_max_left 0 _
  have h100 : CircularConfidence.normalized v ≤ 100 := by
    unfold CircularConfidence.normalized
    exact max_le (by norm_num) (min_le_left _ _)
  refine ⟨rfl, h0, h100, rfl, ?_, ?_, ?_, rfl⟩
  · unfold CircularConfidence.dash
    exact mul_nonneg hc (div_nonneg (by exact_mod_cast h0) (by norm_num))
  · unfold CircularConfidence.dash
    have hle : (CircularConfidence.normalized v : ℚ) / 100 ≤ 1 := by
      rw [div_le_one (by norm_num)]
      exact_mod_cast h100
    calc c * ((CircularConfidence.normalized v : ℚ) / 100)
        ≤ c * 1 := mul_le_mul_of_nonneg_left hle hc
      _ = c := mul_one c
  · unfold CircularConfidence.strokeDasharray
    ring

/-- C9 witness: an out-of-range input `value = 150` is clamped. -/
theorem C9_circular_confidence_clamped_witness :
    (0:ℚ) ≤ 302
    ∧ CircularConfidence.normalized 150 = max 0 (min 100 (jsRound 150))
    ∧ CircularConfidence.normalized 150 ≤ 100 :=
  ⟨by norm_num,
   (C9_circular_confidence_clamped 150 302 (by norm_num)).1,
   (C9_circular_confidence_clamped 150 302 (by norm_num)).2.2.1⟩

/-- C10: on a success response, an absent, `null`, or exactly-zero
`processing_time_seconds` makes the client store the locally measured
round-trip time `(endTime - startTime)/1000`; any non-zero numeric
value is stored as reported by the server. -/
theorem C10_processing_time_fallback (s : AppState) (f : String)
    (body : JsonObj) (ms q : ℚ)
    (hf : s.file = some f) (hs : truthy (body.get "success") = true) :
    (body.get "processing_time_seconds" = none →
        (analyze s (.ok body) ms).1.processingTime = .num (ms / 1000))
    ∧ (body.get "processing_time_seconds" = some .null →
        (analyze s (.ok body) ms).1.processingTime = .num (ms / 1000))
    ∧ (body.get "processing_time_seconds" = some (.num 0) →
        (analyze s (.ok body) ms).1.processingTime = .num (ms / 1000))
    ∧ (body.get "processing_time_seconds" = some (.num q) → q ≠ 0 →
        (analyze s (.ok body) ms).1.processingTime = .num q) := by
  refine ⟨fun h => ?_, fun h => ?_, fun h => ?_, fun h hq => ?_⟩
  · simp [analyze, hf, hs, h, jsOr]
  · simp [analyze, hf, hs, h, jsOr, truthyV]
  · simp [analyze, hf, hs, h, jsOr, truthyV]
  · simp [analyze, hf, hs, h, jsOr, truthyV, hq]

/-- C10 witness: a success body reporting `processing_time_seconds: 0`
falls back to the locally measured time. -/
theorem C10_processing_time_fallback_witness :
    (analyze (handleFile initialAppState "clip.wav")
      (.ok [("success", .bool true), ("processing_time_seconds", .num 0)])
      500).1.processingTime = .num (500 / 1000) :=
  (C10_processing_time_fallback (handleFile initialAppState "clip.wav")
    "clip.wav" [("success", .bool true), ("processing_time_seconds", .num 0)]
    500 7 rfl rfl).2.2.1 rfl

end Vocalproof
